import Mathlib

/-!
Shallow embedding of the Fashion-MNIST SageMaker debugger notebook
(src/debugger.ipynb) and proofs about its workflow.

The notebook is a linear pipeline: dataset fetch (cell 9), local
persistence of two numpy archives (cell 9), upload to S3 (cell 17),
managed training-job submission (cells 21 and 23), status reading with
rule-verdict and output-path projections (cells 26, 27, 29), and tensor
reading (cells 31 to 33).  Operations delegated to external services
(the dataset source, S3, the training backend) are embedded as oracle
parameters or, where only their interface contract matters, as
definitions modelled from the specification and marked as such.
-/

namespace Debugger

/-- A numpy array value as persisted by the notebook: either a rank-3
array of pixel intensities (a stack of 2D images) or a rank-1 array of
integer labels. -/
inductive NpArray where
  | arr3 : List (List (List Nat)) → NpArray
  | arr1 : List Nat → NpArray
  deriving DecidableEq

/-- The leading dimension of an array: the number of samples or labels. -/
def NpArray.count : NpArray → Nat
  | .arr3 a => a.length
  | .arr1 a => a.length

/-- One data split as returned by the dataset source: a sample array
and a parallel label array. -/
structure Split where
  image : List (List (List Nat))
  label : List Nat
  deriving DecidableEq

/-- The result of `fashion_mnist.load_data()`: a training split and a
validation split. -/
structure Dataset where
  train : Split
  val : Split
  deriving DecidableEq

/-- Modelled from the spec: the sample-batch invariant of the external
dataset source (`fashion_mnist.load_data` is library code, not part of
this repository).  Sample count equals label count; intensities are
unsigned 8-bit per pixel; labels are one of 10 classes. -/
def SampleBatchInv (s : Split) : Prop :=
  s.image.length = s.label.length ∧
  (∀ img ∈ s.image, ∀ row ∈ img, ∀ px ∈ row, px < 256) ∧
  (∀ l ∈ s.label, l < 10)

/-- An archive file content: a container mapping named keys to arrays,
as written by `np.savez`. -/
abbrev Archive := List (String × NpArray)

/-- Embedding of `np.savez(path, image=..., label=...)` from cell 9: it
appends the `.npz` suffix to the given path and persists the two arrays
under the keys "image" and "label". -/
def npSavez (path : String) (image : NpArray) (label : NpArray) : String × Archive :=
  (path ++ ".npz", [("image", image), ("label", label)])

/-- The fixed relative directory created by cell 9 (`os.makedirs("./data")`). -/
def dataDir : String := "./data"

/-- Boolean test that one character list starts with another. -/
def charsHaveStart : List Char → List Char → Bool
  | [], _ => true
  | _ :: _, [] => false
  | x :: xs, y :: ys => x == y && charsHaveStart xs ys

/-- Boolean test that string `s` starts with string `start`, computed on
the underlying character lists so that it evaluates by kernel reduction. -/
def strHasStart (start s : String) : Bool := charsHaveStart start.data s.data

/-- Embedding of the dataset stager (cell 9): given the loaded dataset,
it persists the training split and the validation split as two archive
files under the fixed local directory. -/
def datasetStager (d : Dataset) : List (String × Archive) :=
  [npSavez (dataDir ++ "/training") (.arr3 d.train.image) (.arr1 d.train.label),
   npSavez (dataDir ++ "/validation") (.arr3 d.val.image) (.arr1 d.val.label)]

end Debugger

namespace Debugger

/-- C1: in every completed run of the dataset stager, each persisted
archive holds a sample array and a label array whose leading dimensions
agree, provided the external dataset source satisfies its sample-batch
invariant. -/
theorem stager_archive_counts_match (d : Dataset)
    (ht : SampleBatchInv d.train) (hv : SampleBatchInv d.val) :
    ∀ pa ∈ datasetStager d, ∃ img lab : NpArray,
      pa.2.lookup "image" = some img ∧ pa.2.lookup "label" = some lab ∧
      img.count = lab.count := by
  intro pa hpa
  simp only [datasetStager, npSavez, List.mem_cons, List.not_mem_nil, or_false] at hpa
  rcases hpa with h | h <;> subst h
  · exact ⟨.arr3 d.train.image, .arr1 d.train.label, rfl, rfl, ht.1⟩
  · exact ⟨.arr3 d.val.image, .arr1 d.val.label, rfl, rfl, hv.1⟩

/-- A tiny concrete dataset used to witness the stager theorems. -/
def wDataset : Dataset :=
  { train := { image := [[[0, 255]], [[7, 9]]], label := [3, 5] },
    val := { image := [[[128, 1]]], label := [9] } }

/-- Witness for C1: on a concrete dataset, the training archive the
stager persists holds arrays with matching leading dimensions. -/
theorem stager_archive_counts_match_witness :
    ∃ img lab : NpArray,
      List.lookup "image" [("image", NpArray.arr3 wDataset.train.image),
        ("label", NpArray.arr1 wDataset.train.label)] = some img ∧
      List.lookup "label" [("image", NpArray.arr3 wDataset.train.image),
        ("label", NpArray.arr1 wDataset.train.label)] = some lab ∧
      img.count = lab.count :=
  stager_archive_counts_match wDataset (by constructor <;> decide)
    (by constructor <;> decide)
    ("./data/training.npz",
      [("image", NpArray.arr3 wDataset.train.image),
        ("label", NpArray.arr1 wDataset.train.label)])
    (by decide)

/-- C2: given no input beyond the loaded dataset, the stager writes
exactly two archive files, both under the fixed relative directory
"./data", one per split, mapping the key "image" to the sample array of
that split and the key "label" to its label array. -/
theorem stager_writes_two_archives (d : Dataset) :
    datasetStager d =
      [("./data/training.npz",
        [("image", NpArray.arr3 d.train.image), ("label", NpArray.arr1 d.train.label)]),
       ("./data/validation.npz",
        [("image", NpArray.arr3 d.val.image), ("label", NpArray.arr1 d.val.label)])] ∧
    (datasetStager d).length = 2 ∧
    ∀ pa ∈ datasetStager d, strHasStart "./data/" pa.1 = true := by
  refine ⟨rfl, rfl, ?_⟩
  intro pa hpa
  simp only [datasetStager, npSavez, List.mem_cons, List.not_mem_nil, or_false] at hpa
  rcases hpa with h | h <;> subst h
  · show strHasStart "./data/" (dataDir ++ "/training" ++ ".npz") = true
    decide
  · show strHasStart "./data/" (dataDir ++ "/validation" ++ ".npz") = true
    decide

/-- Split a character list at every occurrence of the character `c`. -/
def splitOnChar (c : Char) : List Char → List (List Char)
  | [] => [[]]
  | x :: xs =>
    match splitOnChar c xs with
    | [] => [[]]
    | g :: gs => if x = c then [] :: g :: gs else (x :: g) :: gs

/-- Split a string at every occurrence of the character `c`, computed on
the underlying character list so that it evaluates by kernel reduction. -/
def splitStr (c : Char) (s : String) : List String :=
  (splitOnChar c s.data).map String.mk

/-- The file-name component of a slash-separated path, as
`os.path.basename` computes it for the simple paths the notebook uses. -/
def baseName (p : String) : String := (splitStr '/' p).getLastD p

/-- Modelled from the spec: the uploader contract of cell 17
(`sess.upload_data` is SDK code, not part of this repository).  Given a
local file path and a destination key prefix it copies the file to
remote storage and returns its address, a path string determined by the
session bucket, the key prefix and the file name (deterministic
addressing). -/
def uploadData (bucket : String) (localPath : String) (keyPre : String) : String :=
  "s3://" ++ bucket ++ "/" ++ keyPre ++ "/" ++ baseName localPath

/-- C3: the address returned by the uploader is a function only of the
supplied key prefix and the file name of the local file; within one
session, any two invocations agreeing on those agree on the address. -/
theorem uploader_deterministic (bucket p₁ p₂ k₁ k₂ : String)
    (hf : baseName p₁ = baseName p₂) (hk : k₁ = k₂) :
    uploadData bucket p₁ k₁ = uploadData bucket p₂ k₂ := by
  simp only [uploadData, hf, hk]

/-- Witness for C3: two invocations on the same file name under
different directories, with the key prefix of cell 17, return the same
address. -/
theorem uploader_deterministic_witness :
    uploadData "bkt" "data/training.npz" "keras-fashion-mnist/training" =
      uploadData "bkt" "other/dir/training.npz" "keras-fashion-mnist/training" :=
  uploader_deterministic "bkt" "data/training.npz" "other/dir/training.npz"
    "keras-fashion-mnist/training" "keras-fashion-mnist/training" (by decide) rfl

/-- The job specification assembled by cell 21: entry point, resource
count and class, framework version, execution-mode flag, runtime
version and the list of monitoring rules. -/
structure JobSpec where
  entryPoint : String
  instanceCount : Nat
  instanceType : String
  frameworkVersion : String
  scriptMode : Bool
  pyVersion : String
  rules : List String
  deriving DecidableEq

/-- Modelled from the spec: a well-formed resource-class (instance
type) string has the shape `ml.<family>.<size>` with nonempty family
and size components; validation of this shape is SDK code, not part of
this repository. -/
def validInstanceType (s : String) : Bool :=
  match splitStr '.' s with
  | [a, fam, size] => a == "ml" && !fam.isEmpty && !size.isEmpty
  | _ => false

/-- A remote call recorded by the submitter trace. -/
inductive RemoteCall where
  | createTrainingJob (spec : JobSpec)
  deriving DecidableEq

/-- A submission-time validation error. -/
inductive SubmitError where
  | invalidInstanceType (s : String)
  deriving DecidableEq

/-- Modelled from the spec: the job submitter of cells 21 and 23
(estimator construction plus `fit`), over an oracle for the managed
backend.  It validates the resource-class string before any remote
call; on success it submits the job and blocks until the backend
reports a terminal state, returning the job name.  The second component
records the remote calls attempted. -/
def submitJob (backend : JobSpec → String) (spec : JobSpec) :
    Except SubmitError String × List RemoteCall :=
  if validInstanceType spec.instanceType then
    (.ok (backend spec), [.createTrainingJob spec])
  else
    (.error (.invalidInstanceType spec.instanceType), [])

/-- C4: on a job specification with an invalid resource-class string
the submitter raises a validation error and the recorded remote-call
trace is empty, so no remote call was attempted. -/
theorem submit_invalid_instance_type_fails_fast (backend : JobSpec → String)
    (spec : JobSpec) (h : validInstanceType spec.instanceType = false) :
    submitJob backend spec =
      (.error (.invalidInstanceType spec.instanceType), []) := by
  simp [submitJob, h]

/-- A concrete job specification with a malformed instance type (the
leading "ml." component is missing). -/
def wBadSpec : JobSpec :=
  { entryPoint := "/root/aim410/mnist_keras_tf.py"
    instanceCount := 1
    instanceType := "p3.2xlarge"
    frameworkVersion := "1.15"
    scriptMode := true
    pyVersion := "py3"
    rules := ["LossNotDecreasing", "Overfit"] }

/-- Witness for C4: submitting the malformed specification yields the
validation error and an empty remote-call trace. -/
theorem submit_invalid_instance_type_fails_fast_witness :
    submitJob (fun _ => "job") wBadSpec =
      (.error (.invalidInstanceType wBadSpec.instanceType), []) :=
  submit_invalid_instance_type_fails_fast (fun _ => "job") wBadSpec (by decide)

/-- A Python value as it appears in the `describe_training_job`
metadata snapshot: a string, a number (timestamps and the like), a dict
with string keys, or a list. -/
inductive PyVal where
  | str (s : String)
  | num (n : Nat)
  | dict (d : List (String × PyVal))
  | list (xs : List PyVal)

/-- A dict payload: association list from string keys to values.
Python dicts have unique keys; the embedding keeps the first binding
authoritative. -/
abbrev Dict := List (String × PyVal)

/-- Embedding of a Python subscript `v[k]`: a `KeyError` when the key
is absent from the dict, a `TypeError` when the value is not a dict. -/
def dictGet : PyVal → String → Except String PyVal
  | .dict d, k =>
    match d.lookup k with
    | some v => .ok v
    | none => .error ("KeyError: " ++ k)
  | _, k => .error ("TypeError: value subscripted with " ++ k ++ " is not a dict")

/-- Embedding of using a Python value where a string is required (the
`+` concatenation of cell 29 raises a `TypeError` otherwise). -/
def asStr : PyVal → Except String String
  | .str s => .ok s
  | _ => .error "TypeError: not a string"

/-- Embedding of cell 29: the tensor-output path is built from the
snapshot as `description["DebugHookConfig"]["S3OutputPath"] + job_name
+ "/" + "debug-output/"`.  A missing field propagates as an error. -/
def s3OutputPath (description : PyVal) (jobName : String) : Except String String :=
  match dictGet description "DebugHookConfig" with
  | .error e => .error e
  | .ok dhc =>
    match dictGet dhc "S3OutputPath" with
    | .error e => .error e
    | .ok sp =>
      match asStr sp with
      | .error e => .error e
      | .ok s => .ok (s ++ jobName ++ "/" ++ "debug-output/")

/-- C5: on a metadata snapshot that lacks the output-path entry, either
because `DebugHookConfig` is absent or because its dict has no
`S3OutputPath` key, the status reader fails with an error instead of
returning any path string. -/
theorem output_path_missing_field_fails (d : Dict) (jobName : String)
    (h : d.lookup "DebugHookConfig" = none ∨
      ∃ dd : Dict, d.lookup "DebugHookConfig" = some (.dict dd) ∧
        dd.lookup "S3OutputPath" = none) :
    ∃ e, s3OutputPath (.dict d) jobName = .error e := by
  rcases h with h | ⟨dd, hd, hdd⟩
  · exact ⟨"KeyError: DebugHookConfig", by simp [s3OutputPath, dictGet, h]⟩
  · exact ⟨"KeyError: S3OutputPath", by simp [s3OutputPath, dictGet, hd, hdd]⟩

/-- Witness for C5: a snapshot whose `DebugHookConfig` dict lacks the
`S3OutputPath` key makes the status reader fail. -/
theorem output_path_missing_field_fails_witness :
    ∃ e, s3OutputPath (.dict [("DebugHookConfig", .dict []),
      ("TrainingJobName", .str "job")]) "job" = .error e :=
  output_path_missing_field_fails
    [("DebugHookConfig", .dict []), ("TrainingJobName", .str "job")] "job"
    (Or.inr ⟨[], rfl, rfl⟩)

/-- C6: whenever the snapshot holds an output-path string `s`, the
status reader produces exactly `s ++ jobName ++ "/debug-output/"`: no
separator is inserted between `s` and the job name. -/
theorem output_path_is_plain_concat (d : Dict) (dd : Dict) (s jobName : String)
    (hd : d.lookup "DebugHookConfig" = some (.dict dd))
    (hs : dd.lookup "S3OutputPath" = some (.str s)) :
    s3OutputPath (.dict d) jobName = .ok (s ++ jobName ++ "/debug-output/") := by
  simp only [s3OutputPath, dictGet, hd, hs, asStr]
  rw [String.append_assoc (s ++ jobName) "/" "debug-output/"]
  exact congrArg (fun u => Except.ok (s ++ jobName ++ u)) (by decide)

/-- Witness for C6: on a concrete snapshot with output path
"s3://bucket/" and job name "job" the reader returns
"s3://bucket/job/debug-output/". -/
theorem output_path_is_plain_concat_witness :
    s3OutputPath (.dict [("DebugHookConfig",
        .dict [("S3OutputPath", .str "s3://bucket/")])]) "job" =
      .ok ("s3://bucket/" ++ "job" ++ "/debug-output/") :=
  output_path_is_plain_concat [("DebugHookConfig",
      .dict [("S3OutputPath", .str "s3://bucket/")])]
    [("S3OutputPath", .str "s3://bucket/")] "s3://bucket/" "job" rfl rfl

/-- Embedding of the Python `dict.pop(k)` of cell 27 without a default
argument: it raises `KeyError` when the key is absent, otherwise it
returns the value and removes the binding from the dict. -/
def popKey (d : Dict) (k : String) : Except String (PyVal × Dict) :=
  match d.lookup k with
  | some v => .ok (v, d.filter (fun kv => kv.1 != k))
  | none => .error ("KeyError: " ++ k)

/-- The body of the loop in cell 27 applied to one rule-evaluation
status dict: pop `LastModifiedTime`, then pop `RuleEvaluationJobArn`,
and keep the remaining dict (which the cell pretty-prints). -/
def projectStatus (st : Dict) : Except String Dict :=
  match popKey st "LastModifiedTime" with
  | .error e => .error e
  | .ok (_, st₁) =>
    match popKey st₁ "RuleEvaluationJobArn" with
    | .error e => .error e
    | .ok (_, st₂) => .ok st₂

/-- The loop of cell 27 over the `DebugRuleEvaluationStatuses` list:
each entry must be a dict and is projected by `projectStatus`. -/
def verdictLoop : List PyVal → Except String (List PyVal)
  | [] => .ok []
  | .dict st :: rest =>
    match projectStatus st with
    | .error e => .error e
    | .ok st' =>
      match verdictLoop rest with
      | .error e => .error e
      | .ok rest' => .ok (.dict st' :: rest')
  | _ :: _ => .error "TypeError: rule-evaluation status is not a dict"

/-- Replace the value bound to key `k` in a dict value, leaving other
keys and non-dict values unchanged.  This expresses, in the functional
embedding, the in-place mutation of cell 27: the popped status dicts
live inside the `description` snapshot, so the snapshot after the loop
carries the projected statuses. -/
def setKey (v : PyVal) (k : String) (newVal : PyVal) : PyVal :=
  match v with
  | .dict d => .dict (d.map (fun kv => if kv.1 == k then (kv.1, newVal) else kv))
  | other => other

/-- Embedding of cell 27: read `DebugRuleEvaluationStatuses` from the
snapshot, project each status in place, and return both the projected
statuses (which the cell prints) and the snapshot as mutated. -/
def projectVerdicts (description : PyVal) : Except String (List PyVal × PyVal) :=
  match dictGet description "DebugRuleEvaluationStatuses" with
  | .error e => .error e
  | .ok (.list xs) =>
    match verdictLoop xs with
    | .error e => .error e
    | .ok xs' => .ok (xs', setKey description "DebugRuleEvaluationStatuses" (.list xs'))
  | .ok _ => .error "TypeError: statuses value is not a list"

/-- Looking up the removed key in a dict filtered at that key gives
nothing. -/
theorem lookup_filter_self (st : Dict) (k : String) :
    (st.filter (fun kv => kv.1 != k)).lookup k = none := by
  induction st with
  | nil => rfl
  | cons kv t ih =>
    by_cases h : kv.1 = k
    · simp [List.filter_cons, h, ih]
    · simp [List.filter_cons, List.lookup, bne_iff_ne, h,
        beq_false_of_ne (fun hk => h hk.symm), ih]

/-- Looking up any other key in a dict filtered at `k` is unchanged. -/
theorem lookup_filter_ne (st : Dict) (k k' : String) (h : k ≠ k') :
    (st.filter (fun kv => kv.1 != k')).lookup k = st.lookup k := by
  induction st with
  | nil => rfl
  | cons kv t ih =>
    by_cases hh : kv.1 = k'
    · subst hh
      simp [List.filter_cons, List.lookup, beq_false_of_ne h, ih]
    · by_cases hk : k = kv.1
      · subst hk
        simp [List.filter_cons, List.lookup, bne_iff_ne, hh]
      · simp [List.filter_cons, List.lookup, bne_iff_ne, hh,
          beq_false_of_ne hk, ih]

/-- Per-status form of the cell 27 frame property, used to prove the
list-level theorem. -/
theorem projectStatus_frame (st : Dict) (vL vR : PyVal)
    (hL : st.lookup "LastModifiedTime" = some vL)
    (hR : st.lookup "RuleEvaluationJobArn" = some vR) :
    ∃ st', projectStatus st = .ok st' ∧
      st'.lookup "LastModifiedTime" = none ∧
      st'.lookup "RuleEvaluationJobArn" = none ∧
      (∀ k, k ≠ "LastModifiedTime" → k ≠ "RuleEvaluationJobArn" →
        st'.lookup k = st.lookup k) ∧
      st' ≠ st := by
  have hRne : ("RuleEvaluationJobArn" : String) ≠ "LastModifiedTime" := by decide
  have hLne : ("LastModifiedTime" : String) ≠ "RuleEvaluationJobArn" := by decide
  refine ⟨(st.filter (fun kv => kv.1 != "LastModifiedTime")).filter
    (fun kv => kv.1 != "RuleEvaluationJobArn"), ?_, ?_, ?_, ?_, ?_⟩
  · have h1 : popKey st "LastModifiedTime" =
        .ok (vL, st.filter (fun kv => kv.1 != "LastModifiedTime")) := by
      simp only [popKey, hL]
    have h2 : (st.filter (fun kv => kv.1 != "LastModifiedTime")).lookup
        "RuleEvaluationJobArn" = some vR := by
      rw [lookup_filter_ne _ _ _ hRne]; exact hR
    have h3 : popKey (st.filter (fun kv => kv.1 != "LastModifiedTime"))
        "RuleEvaluationJobArn" =
        .ok (vR, (st.filter (fun kv => kv.1 != "LastModifiedTime")).filter
          (fun kv => kv.1 != "RuleEvaluationJobArn")) := by
      simp only [popKey, h2]
    simp only [projectStatus, h1, h3]
  · rw [lookup_filter_ne _ _ _ hLne, lookup_filter_self]
  · exact lookup_filter_self _ _
  · intro k hkL hkR
    rw [lookup_filter_ne _ _ _ hkR, lookup_filter_ne _ _ _ hkL]
  · intro heq
    have : List.lookup "LastModifiedTime"
        ((st.filter (fun kv => kv.1 != "LastModifiedTime")).filter
          (fun kv => kv.1 != "RuleEvaluationJobArn")) = some vL := by
      rw [heq]; exact hL
    rw [lookup_filter_ne _ _ _ hLne, lookup_filter_self] at this
    exact Option.noConfusion this

/-- C10: the verdict projection removes exactly the fields
`LastModifiedTime` and `RuleEvaluationJobArn` from each rule-evaluation
status and leaves every other field of every status unchanged; each
projected status differs from the one held in the snapshot before the
loop, so the loop mutates the locally held snapshot rather than only
reading it. -/
theorem verdict_projection_frame (sts : List Dict)
    (h : ∀ st ∈ sts, (st.lookup "LastModifiedTime").isSome = true ∧
      (st.lookup "RuleEvaluationJobArn").isSome = true) :
    ∃ sts' : List Dict,
      verdictLoop (sts.map PyVal.dict) = .ok (sts'.map PyVal.dict) ∧
      List.Forall₂ (fun st st' =>
        List.lookup "LastModifiedTime" st' = none ∧
        List.lookup "RuleEvaluationJobArn" st' = none ∧
        (∀ k, k ≠ "LastModifiedTime" → k ≠ "RuleEvaluationJobArn" →
          List.lookup k st' = List.lookup k st) ∧
        st' ≠ st) sts sts' := by
  induction sts with
  | nil => exact ⟨[], rfl, List.Forall₂.nil⟩
  | cons st rest ih =>
    obtain ⟨h1, h2⟩ := h st (List.mem_cons_self st rest)
    obtain ⟨vL, hvL⟩ := Option.isSome_iff_exists.mp h1
    obtain ⟨vR, hvR⟩ := Option.isSome_iff_exists.mp h2
    obtain ⟨st', hps, hfL, hfR, hframe, hne⟩ := projectStatus_frame st vL vR hvL hvR
    obtain ⟨rest', hloop, hrel⟩ := ih (fun s hs => h s (List.mem_cons_of_mem st hs))
    refine ⟨st' :: rest', ?_, List.Forall₂.cons ⟨hfL, hfR, hframe, hne⟩ hrel⟩
    simp only [List.map_cons, verdictLoop, hps, hloop]

/-- Witness for C10: the projection on a concrete one-status snapshot
removes the two fields, keeps the rest, and changes the status. -/
theorem verdict_projection_frame_witness :
    ∃ sts' : List Dict,
      verdictLoop ([[("RuleConfigurationName", PyVal.str "LossNotDecreasing"),
        ("RuleEvaluationStatus", PyVal.str "IssuesFound"),
        ("LastModifiedTime", PyVal.num 1575360000),
        ("RuleEvaluationJobArn", PyVal.str "arn:aws:sagemaker:rule-job")]].map
          PyVal.dict) = .ok (sts'.map PyVal.dict) ∧
      List.Forall₂ (fun st st' =>
        List.lookup "LastModifiedTime" st' = none ∧
        List.lookup "RuleEvaluationJobArn" st' = none ∧
        (∀ k, k ≠ "LastModifiedTime" → k ≠ "RuleEvaluationJobArn" →
          List.lookup k st' = List.lookup k st) ∧
        st' ≠ st)
        [[("RuleConfigurationName", PyVal.str "LossNotDecreasing"),
          ("RuleEvaluationStatus", PyVal.str "IssuesFound"),
          ("LastModifiedTime", PyVal.num 1575360000),
          ("RuleEvaluationJobArn", PyVal.str "arn:aws:sagemaker:rule-job")]] sts' :=
  verdict_projection_frame
    [[("RuleConfigurationName", PyVal.str "LossNotDecreasing"),
      ("RuleEvaluationStatus", PyVal.str "IssuesFound"),
      ("LastModifiedTime", PyVal.num 1575360000),
      ("RuleEvaluationJobArn", PyVal.str "arn:aws:sagemaker:rule-job")]]
    (by intro st hst
        simp only [List.mem_singleton] at hst
        subst hst
        exact ⟨rfl, rfl⟩)

/-- A call to the SageMaker client recorded by the status-reader trace. -/
inductive ClientCall where
  | describeTrainingJob (name : String)
  deriving DecidableEq

/-- Embedding of cells 26, 27 and 29: one `describe_training_job` call
fetches the metadata snapshot, then the rule verdicts (cell 27) and the
tensor-output path (cell 29) are projected from that snapshot; the path
is read from the snapshot as mutated by the verdict loop.  The second
component records the client calls performed. -/
def statusRead (client : String → PyVal) (jobName : String) :
    Except String (List PyVal × String) × List ClientCall :=
  let description := client jobName
  let r : Except String (List PyVal × String) :=
    match projectVerdicts description with
    | .error e => .error e
    | .ok (verdicts, descrAfter) =>
      match s3OutputPath descrAfter jobName with
      | .error e => .error e
      | .ok path => .ok (verdicts, path)
  (r, [.describeTrainingJob jobName])

/-- C7: the status reader performs exactly one metadata read for the
given job identifier, and whatever it returns consists of exactly the
two projections of that single snapshot: the monitoring-rule verdicts
and the tensor-output path. -/
theorem status_reader_single_read (client : String → PyVal) (jobName : String) :
    (statusRead client jobName).2 = [ClientCall.describeTrainingJob jobName] ∧
    (statusRead client jobName).2.length = 1 ∧
    ∀ v p, (statusRead client jobName).1 = .ok (v, p) →
      ∃ descrAfter, projectVerdicts (client jobName) = .ok (v, descrAfter) ∧
        s3OutputPath descrAfter jobName = .ok p := by
  refine ⟨rfl, rfl, ?_⟩
  intro v p h
  simp only [statusRead] at h
  split at h
  next e heq => exact absurd h (by simp)
  next v₀ d₀ heq =>
    split at h
    next e heq₂ => exact absurd h (by simp)
    next p₀ heq₂ =>
      simp only [Except.ok.injEq, Prod.mk.injEq] at h
      exact ⟨d₀, by rw [heq, h.1], by rw [heq₂, h.2]⟩

/-- A concrete metadata snapshot used to witness the status reader. -/
def wDescription : PyVal :=
  .dict [("TrainingJobName", .str "job"),
    ("DebugRuleEvaluationStatuses", .list
      [.dict [("RuleConfigurationName", .str "LossNotDecreasing"),
        ("RuleEvaluationStatus", .str "IssuesFound"),
        ("LastModifiedTime", .num 1575360000),
        ("RuleEvaluationJobArn", .str "arn:aws:sagemaker:rule-job")]]),
    ("DebugHookConfig", .dict [("S3OutputPath", .str "s3://bucket/")])]

/-- Witness for C7: on a concrete client the reader issues the single
describe call and returns the two projections of its snapshot. -/
theorem status_reader_single_read_witness :
    (statusRead (fun _ => wDescription) "job").2 =
      [ClientCall.describeTrainingJob "job"] ∧
    ∃ descrAfter, projectVerdicts wDescription =
        .ok ([.dict [("RuleConfigurationName", .str "LossNotDecreasing"),
          ("RuleEvaluationStatus", .str "IssuesFound")]], descrAfter) ∧
      s3OutputPath descrAfter "job" = .ok "s3://bucket/job/debug-output/" :=
  ⟨(status_reader_single_read (fun _ => wDescription) "job").1,
    (status_reader_single_read (fun _ => wDescription) "job").2.2
      [.dict [("RuleConfigurationName", .str "LossNotDecreasing"),
        ("RuleEvaluationStatus", .str "IssuesFound")]]
      "s3://bucket/job/debug-output/" rfl⟩

/-- The pipeline stages of the notebook, in program order: dataset
fetch, local persistence (cell 9), upload (cell 17), job submission
(cells 21 and 23), status read (cells 26 to 29), tensor read (cells 31
to 33). -/
inductive Stage where
  | fetch
  | persist
  | upload
  | submit
  | readStatus
  | readTensors
  deriving DecidableEq

/-- Oracles for the operations the notebook delegates to external
collaborators; each may fail with an error message. -/
structure Ops where
  fetchData : Except String Dataset
  persistData : Dataset → Except String (List (String × Archive))
  uploadFile : String → Except String String
  fit : String → String → Except String String
  describe : String → Except String PyVal
  tensorValues : String → Except String (List Nat)

/-- The full stage order of one notebook run. -/
def stageOrder : List Stage :=
  [.fetch, .persist, .upload, .submit, .readStatus, .readTensors]

/-- Embedding of the whole notebook run (cells 9 through 33) as the
sequential composition of its stages: each stage runs only if every
earlier stage succeeded, an error ends the run, and the second
component records which stages executed.  The upload stage performs the
two `upload_data` calls of cell 17; the status-read stage performs the
describe call and the two in-notebook projections. -/
def runPipeline (ops : Ops) : Except String (List Nat) × List Stage :=
  match ops.fetchData with
  | .error e => (.error e, [.fetch])
  | .ok d =>
    match ops.persistData d with
    | .error e => (.error e, [.fetch, .persist])
    | .ok _ =>
      match ops.uploadFile "data/training.npz" with
      | .error e => (.error e, [.fetch, .persist, .upload])
      | .ok trainingPath =>
        match ops.uploadFile "data/validation.npz" with
        | .error e => (.error e, [.fetch, .persist, .upload])
        | .ok validationPath =>
          match ops.fit trainingPath validationPath with
          | .error e => (.error e, [.fetch, .persist, .upload, .submit])
          | .ok jobName =>
            match ops.describe jobName with
            | .error e => (.error e, [.fetch, .persist, .upload, .submit, .readStatus])
            | .ok description =>
              match projectVerdicts description with
              | .error e => (.error e, [.fetch, .persist, .upload, .submit, .readStatus])
              | .ok (_, descrAfter) =>
                match s3OutputPath descrAfter jobName with
                | .error e => (.error e, [.fetch, .persist, .upload, .submit, .readStatus])
                | .ok path =>
                  match ops.tensorValues path with
                  | .error e => (.error e, stageOrder)
                  | .ok vals => (.ok vals, stageOrder)

/-- C8: if any stage raises, no later stage executes, the error
reaches the caller unmodified, and no stage is retried: in every run
the executed-stage trace is duplicate-free, and when a stage fails the
run returns exactly that error together with the trace that stops at
the failing stage. -/
theorem pipeline_fail_fast (ops : Ops) :
    (∀ e, ops.fetchData = .error e →
      runPipeline ops = (.error e, [.fetch])) ∧
    (∀ d e, ops.fetchData = .ok d → ops.persistData d = .error e →
      runPipeline ops = (.error e, [.fetch, .persist])) ∧
    (∀ d fs e, ops.fetchData = .ok d → ops.persistData d = .ok fs →
      ops.uploadFile "data/training.npz" = .error e →
      runPipeline ops = (.error e, [.fetch, .persist, .upload])) ∧
    (∀ d fs t e, ops.fetchData = .ok d → ops.persistData d = .ok fs →
      ops.uploadFile "data/training.npz" = .ok t →
      ops.uploadFile "data/validation.npz" = .error e →
      runPipeline ops = (.error e, [.fetch, .persist, .upload])) ∧
    (∀ d fs t v e, ops.fetchData = .ok d → ops.persistData d = .ok fs →
      ops.uploadFile "data/training.npz" = .ok t →
      ops.uploadFile "data/validation.npz" = .ok v →
      ops.fit t v = .error e →
      runPipeline ops = (.error e, [.fetch, .persist, .upload, .submit])) ∧
    (∀ d fs t v j e, ops.fetchData = .ok d → ops.persistData d = .ok fs →
      ops.uploadFile "data/training.npz" = .ok t →
      ops.uploadFile "data/validation.npz" = .ok v →
      ops.fit t v = .ok j →
      ops.describe j = .error e →
      runPipeline ops = (.error e, [.fetch, .persist, .upload, .submit, .readStatus])) ∧
    (∀ d fs t v j descr vs da path e,
      ops.fetchData = .ok d → ops.persistData d = .ok fs →
      ops.uploadFile "data/training.npz" = .ok t →
      ops.uploadFile "data/validation.npz" = .ok v →
      ops.fit t v = .ok j →
      ops.describe j = .ok descr →
      projectVerdicts descr = .ok (vs, da) →
      s3OutputPath da j = .ok path →
      ops.tensorValues path = .error e →
      runPipeline ops = (.error e, stageOrder)) ∧
    (runPipeline ops).2.Nodup := by
  refine ⟨?_, ?_, ?_, ?_, ?_, ?_, ?_, ?_⟩
  · intro e h
    simp [runPipeline, h]
  · intro d e h₁ h₂
    simp [runPipeline, h₁, h₂]
  · intro d fs e h₁ h₂ h₃
    simp [runPipeline, h₁, h₂, h₃]
  · intro d fs t e h₁ h₂ h₃ h₄
    simp [runPipeline, h₁, h₂, h₃, h₄]
  · intro d fs t v e h₁ h₂ h₃ h₄ h₅
    simp [runPipeline, h₁, h₂, h₃, h₄, h₅]
  · intro d fs t v j e h₁ h₂ h₃ h₄ h₅ h₆
    simp [runPipeline, h₁, h₂, h₃, h₄, h₅, h₆]
  · intro d fs t v j descr vs da path e h₁ h₂ h₃ h₄ h₅ h₆ h₇ h₈ h₉
    simp [runPipeline, h₁, h₂, h₃, h₄, h₅, h₆, h₇, h₈, h₉]
  · unfold runPipeline
    (repeat' split) <;> (dsimp only; decide)

/-- Concrete oracles whose first stage fails: the dataset source is
unreachable. -/
def wOps : Ops :=
  { fetchData := .error "ConnectionError: dataset source unreachable"
    persistData := fun d => .ok (datasetStager d)
    uploadFile := fun p => .ok (uploadData "bkt" p "keras-fashion-mnist")
    fit := fun _ _ => .ok "job"
    describe := fun _ => .ok wDescription
    tensorValues := fun _ => .ok [] }

/-- Witness for C8: when the dataset fetch fails, the run returns that
very error and only the fetch stage executed. -/
theorem pipeline_fail_fast_witness :
    runPipeline wOps =
      (.error "ConnectionError: dataset source unreachable", [Stage.fetch]) :=
  (pipeline_fail_fast wOps).1 "ConnectionError: dataset source unreachable" rfl

/-- A local filesystem operation performed by a notebook cell. -/
inductive FsOp where
  | mkdir (p : String)
  | write (p : String)
  | read (p : String)
  deriving DecidableEq

/-- Normalise a relative path by stripping a leading "./", so that the
"./data/training.npz" written by cell 9 and the "data/training.npz"
read by cell 17 denote the same file. -/
def normPath (p : String) : String :=
  if strHasStart "./" p then String.mk (p.data.drop 2) else p

/-- Local filesystem operations of cell 9: create the data directory
and write the two archives. -/
def stagerFsOps : List FsOp :=
  [.mkdir "./data", .write "./data/training.npz", .write "./data/validation.npz"]

/-- Local filesystem operations of cell 17: the uploader reads each
archive once and writes nothing. -/
def uploaderFsOps : List FsOp :=
  [.read "data/training.npz", .read "data/validation.npz"]

/-- Local filesystem operations of cells 21 and 23: the SDK reads the
entry-point script; nothing local is written. -/
def submitFsOps : List FsOp :=
  [.read "/root/aim410/mnist_keras_tf.py"]

/-- Local filesystem operations of cells 26 to 29: none, the status
read is remote only. -/
def statusFsOps : List FsOp := []

/-- Local filesystem operations of cells 31 to 33: none, the trial
reads tensors from remote storage only. -/
def tensorFsOps : List FsOp := []

/-- The local filesystem trace of one complete notebook run, in stage
order. -/
def workflowFsOps : List FsOp :=
  stagerFsOps ++ uploaderFsOps ++ submitFsOps ++ statusFsOps ++ tensorFsOps

/-- Test for a write to the file denoted by normalised path `p`. -/
def isWriteTo (p : String) (op : FsOp) : Bool :=
  match op with
  | .write q => normPath q == p
  | _ => false

/-- Test for any operation that modifies the local filesystem. -/
def modifiesFs (op : FsOp) : Bool :=
  match op with
  | .read _ => false
  | _ => true

/-- C9: in the filesystem trace of a complete run, each archive file is
written exactly once; all local modifications happen in the stager
segment, so after an archive is created no later operation of the
workflow writes to it; and the uploader performs exactly the two
archive reads, modifying neither the archives nor any other local
file. -/
theorem archives_written_once_never_modified_after :
    workflowFsOps.countP (isWriteTo "data/training.npz") = 1 ∧
    workflowFsOps.countP (isWriteTo "data/validation.npz") = 1 ∧
    workflowFsOps =
      stagerFsOps ++ (uploaderFsOps ++ submitFsOps ++ statusFsOps ++ tensorFsOps) ∧
    (uploaderFsOps ++ submitFsOps ++ statusFsOps ++ tensorFsOps).countP modifiesFs = 0 ∧
    uploaderFsOps = [.read "data/training.npz", .read "data/validation.npz"] := by
  refine ⟨?_, ?_, ?_, ?_, rfl⟩ <;> decide

end Debugger
